import Mathlib

/-!
Shallow embedding of the tool-dispatch core of the sqlite-mcp server
(src/server.ts, src/tools.ts, src/libsql-client.ts, and the local
better-sqlite3 client), together with the configuration resolver
(getConfig, quoted in the README from index.ts).

Strings are modelled by Lean String; where a JavaScript string method has
no direct Lean counterpart it is embedded as an explicit recursive
function on the character list (splitOnSemi for String.split(";"),
trimChars for String.trim, joinUnderscore for Array.join("_")).
Fallible operations are modelled with Except/Option; a thrown JavaScript
error is an Except.error carrying the message.
-/

namespace SqliteMcp

/-- JS truthiness of an environment value / optional string field:
undefined and the empty string are falsy, every other string is truthy. -/
def jsTruthy (v : Option String) : Bool :=
  match v with
  | none => false
  | some s => !(s == "")

/-- JS a || b on an optional string a: the default b is used when a is
undefined or the empty string (both falsy). -/
def jsOrElse (v : Option String) (dflt : String) : String :=
  match v with
  | none => dflt
  | some s => if s == "" then dflt else s

/-- JS String.split(";") on the character list: every semicolon starts a
new segment; empty segments are kept. -/
def splitOnSemi : List Char → List (List Char)
  | [] => [[]]
  | ';' :: cs => [] :: splitOnSemi cs
  | c :: cs =>
    match splitOnSemi cs with
    | [] => [[c]]
    | seg :: rest => (c :: seg) :: rest

/-- Drop leading whitespace characters. -/
def trimLeft (cs : List Char) : List Char := cs.dropWhile Char.isWhitespace

/-- JS String.trim on the character list: whitespace is removed from both
ends. -/
def trimChars (cs : List Char) : List Char :=
  (trimLeft (trimLeft cs).reverse).reverse

/-- The statement splitting shared by both clients' runScript
(libsql-client.ts lines 63-66 and the local client lines 60-63):
sql.split(";").map(s => s.trim()).filter(s => s.length > 0). -/
def splitStatements (sql : String) : List String :=
  (((splitOnSemi sql.toList).map trimChars).filter
    (fun s => s.length > 0)).map List.asString

/-- JS Array.join("_") on a list of strings. -/
def joinUnderscore : List String → String
  | [] => ""
  | [c] => c
  | c :: cs => c ++ "_" ++ joinUnderscore cs

/-- JS Array.join(", ") on a list of strings. -/
def joinCommaSpace : List String → String
  | [] => ""
  | [c] => c
  | c :: cs => c ++ ", " ++ joinCommaSpace cs

/-- ASCII-case-insensitive character comparison, as used by the engine's
LIKE operator in its default configuration. -/
def charLowerEq (a b : Char) : Bool := a.toLower == b.toLower

/-- All suffixes of a character list, longest first. -/
def suffixes : List Char → List (List Char)
  | [] => [[]]
  | c :: cs => (c :: cs) :: suffixes cs

/-- The engine's LIKE pattern matcher at the boundary of the modelled SQL
engine: percent matches any character sequence, underscore exactly one
character, any other pattern character matches itself up to ASCII case. -/
def likeMatch : List Char → List Char → Bool
  | [], s => s.isEmpty
  | '%' :: ps, s => (suffixes s).any (fun t => likeMatch ps t)
  | '_' :: ps, s =>
    match s with
    | [] => false
    | _ :: cs => likeMatch ps cs
  | p :: ps, s =>
    match s with
    | [] => false
    | c :: cs => charLowerEq p c && likeMatch ps cs

/-- String-level LIKE, the form used in the clients' WHERE clauses. -/
def sqlLike (pattern s : String) : Bool := likeMatch pattern.toList s.toList

/-- A JS primitive appearing as a bound parameter or a column default
(types.ts is not in the sources; the two cases the clients distinguish
with typeof are a string and a number). -/
inductive JsLit where
  | str (s : String)
  | num (n : Int)
  deriving DecidableEq

/-- QueryResult of types.ts: ordered column names, row objects and the
row count. A row object is a list of key/value pairs in column order. -/
structure QueryResult where
  columns : List String
  rows : List (List (String × JsLit))
  rowCount : Nat
  deriving DecidableEq

/-- ExecuteResult of types.ts: rows changed and last inserted row id. -/
structure ExecuteResult where
  changes : Nat
  lastInsertRowid : Int
  deriving DecidableEq

/-- TableInfo of types.ts as produced by listTables. -/
structure TableInfo where
  name : String
  type : String
  rowCount : Nat
  deriving DecidableEq

/-- ColumnInfo of types.ts as produced by describeTable (PRAGMA
table_info row). -/
structure ColumnInfo where
  cid : Nat
  name : String
  type : String
  notnull : Nat
  dfltValue : Option String
  pk : Nat
  deriving DecidableEq

/-- The describeTable result: columns plus the schema sql, empty string
when sqlite_master has none. -/
structure TableDescription where
  columns : List ColumnInfo
  sql : String
  deriving DecidableEq

/-- IndexInfo of types.ts (PRAGMA index_list row); the source's field
named after partial indexes is renamed partialFlag here. -/
structure IndexInfo where
  seq : Nat
  name : String
  unique : Nat
  origin : String
  partialFlag : Nat
  deriving DecidableEq

/-- ForeignKeyInfo of types.ts (PRAGMA foreign_key_list row); the
source's from/to/match fields are renamed to avoid Lean keywords. -/
structure ForeignKeyInfo where
  id : Nat
  seq : Nat
  table : String
  fromCol : String
  toCol : String
  onUpdate : String
  onDelete : String
  matchClause : String
  deriving DecidableEq

/-- DatabaseInfo of types.ts as produced by getInfo. -/
structure DatabaseInfo where
  filePath : String
  fileSize : Nat
  tableCount : Nat
  pageCount : Nat
  pageSize : Nat
  journalMode : String
  walMode : Bool
  encoding : String
  sqliteVersion : String
  deriving DecidableEq

/-- The integrityCheck result shape of both clients. -/
structure IntegrityResult where
  ok : Bool
  results : List String
  deriving DecidableEq

/-- ColumnDefinition of types.ts as consumed by createTable; the
source's default field is renamed dflt (value absent, or a typed
literal). -/
structure ColumnDefinition where
  name : String
  type : String
  primaryKey : Option Bool := none
  notNull : Option Bool := none
  unique : Option Bool := none
  dflt : Option JsLit := none
  deriving DecidableEq

/-- The argument bag of one tool call (JS Record<string, unknown>),
with one typed field per key the dispatcher or a client reads. The JS
key columns is cast both as string[] (create_index) and as
ColumnDefinition[] (create_table); those two readings are the fields
columns and columnDefs. -/
structure Args where
  sql : Option String := none
  params : Option (List JsLit) := none
  table : Option String := none
  columns : Option (List String) := none
  columnDefs : Option (List ColumnDefinition) := none
  action : Option String := none
  column : Option String := none
  type : Option String := none
  notNull : Option Bool := none
  dflt : Option JsLit := none
  oldName : Option String := none
  newName : Option String := none
  newTableName : Option String := none
  indexName : Option String := none
  unique : Option Bool := none
  ifExists : Option Bool := none
  ifNotExists : Option Bool := none

/-- SqliteClientInterface of types.ts, one call deep: each operation is
a function from its arguments to a result or a thrown error message.
The dispatch-layer claims quantify over every behaviour of this
interface. -/
structure SqliteClientInterface where
  query : String → Option (List JsLit) → Except String QueryResult
  execute : String → Option (List JsLit) → Except String ExecuteResult
  runScript : String → Except String Nat
  listTables : Unit → Except String (List TableInfo)
  describeTable : String → Except String TableDescription
  listIndexes : String → Except String (List IndexInfo)
  listForeignKeys : String → Except String (List ForeignKeyInfo)
  createTable : String → List ColumnDefinition → Option Bool → Except String Unit
  alterTable : String → String → Args → Except String Unit
  dropTable : String → Option Bool → Except String Unit
  createIndex : String → List String → Option String → Option Bool → Option Bool →
    Except String Unit
  dropIndex : String → Option Bool → Except String Unit
  getInfo : Unit → Except String DatabaseInfo
  vacuum : Unit → Except String (Nat × Nat)
  integrityCheck : Unit → Except String IntegrityResult

/-- The value handleToolCall resolves to on success, one constructor per
return shape of the switch in server.ts lines 24-109. -/
inductive ToolOutcome where
  | queryResult (r : QueryResult)
  | executeResult (r : ExecuteResult)
  | runScriptResult (statementsRun : Nat)
  | tableList (ts : List TableInfo)
  | tableDescription (d : TableDescription)
  | indexList (l : List IndexInfo)
  | foreignKeyList (l : List ForeignKeyInfo)
  | createTableSuccess (table : String)
  | alterTableSuccess (table action : String)
  | dropTableSuccess (table : String)
  | createIndexSuccess (table indexName : String)
  | dropIndexSuccess (indexName : String)
  | info (i : DatabaseInfo)
  | vacuumResult (sizeBefore sizeAfter : Nat)
  | integrityResult (r : IntegrityResult)
  deriving DecidableEq

/-- handleToolCall of server.ts lines 19-110: the switch keyed by tool
name. Required string fields are read with getD (the SDK validates the
input schema before the handler runs); an unknown name throws. -/
def handleToolCall (toolName : String) (args : Args) (client : SqliteClientInterface) :
    Except String ToolOutcome :=
  match toolName with
  | "sqlite_query" => (client.query (args.sql.getD "") args.params).map .queryResult
  | "sqlite_execute" => (client.execute (args.sql.getD "") args.params).map .executeResult
  | "sqlite_run_script" => (client.runScript (args.sql.getD "")).map .runScriptResult
  | "sqlite_list_tables" => (client.listTables ()).map .tableList
  | "sqlite_describe_table" =>
    (client.describeTable (args.table.getD "")).map .tableDescription
  | "sqlite_list_indexes" => (client.listIndexes (args.table.getD "")).map .indexList
  | "sqlite_list_foreign_keys" =>
    (client.listForeignKeys (args.table.getD "")).map .foreignKeyList
  | "sqlite_create_table" =>
    (client.createTable (args.table.getD "") (args.columnDefs.getD []) args.ifNotExists).map
      (fun _ => .createTableSuccess (args.table.getD ""))
  | "sqlite_alter_table" =>
    (client.alterTable (args.table.getD "") (args.action.getD "") args).map
      (fun _ => .alterTableSuccess (args.table.getD "") (args.action.getD ""))
  | "sqlite_drop_table" =>
    (client.dropTable (args.table.getD "") args.ifExists).map
      (fun _ => .dropTableSuccess (args.table.getD ""))
  | "sqlite_create_index" =>
    (client.createIndex (args.table.getD "") (args.columns.getD []) args.indexName
        args.unique args.ifNotExists).map
      (fun _ => .createIndexSuccess (args.table.getD "")
        (jsOrElse args.indexName
          ("idx_" ++ args.table.getD "" ++ "_" ++ joinUnderscore (args.columns.getD []))))
  | "sqlite_drop_index" =>
    (client.dropIndex (args.indexName.getD "") args.ifExists).map
      (fun _ => .dropIndexSuccess (args.indexName.getD ""))
  | "sqlite_get_info" => (client.getInfo ()).map .info
  | "sqlite_vacuum" => (client.vacuum ()).map (fun p => .vacuumResult p.1 p.2)
  | "sqlite_integrity_check" => (client.integrityCheck ()).map .integrityResult
  | _ => .error ("Unknown tool: " ++ toolName)

/-- The names of the 15 ToolDefinitions of tools.ts, in catalog order. -/
def toolNames : List String :=
  ["sqlite_query", "sqlite_execute", "sqlite_run_script",
   "sqlite_list_tables", "sqlite_describe_table", "sqlite_list_indexes",
   "sqlite_list_foreign_keys",
   "sqlite_create_table", "sqlite_alter_table", "sqlite_drop_table",
   "sqlite_create_index", "sqlite_drop_index",
   "sqlite_get_info", "sqlite_vacuum", "sqlite_integrity_check"]

/-- One item of a ResultEnvelope's content array. -/
structure ContentItem where
  type : String
  text : String
  deriving DecidableEq

/-- The uniform response envelope every registered tool handler returns. -/
structure ResultEnvelope where
  content : List ContentItem
  isError : Bool
  deriving DecidableEq

/-- Renders a JS literal the way JSON.stringify renders a leaf value. -/
def renderLit : JsLit → String
  | .str s => "\x22" ++ s ++ "\x22"
  | .num n => toString n

/-- Stands in for JSON.stringify(result, null, 2) in the success branch
of the registered handler: a total textual rendering of the outcome. No
claim depends on the exact serialized shape, only on the envelope
carrying exactly one text item. -/
def serializeOutcome : ToolOutcome → String
  | .queryResult r =>
    "\x7b \x22columns\x22: " ++ joinCommaSpace r.columns ++
      ", \x22rowCount\x22: " ++ toString r.rowCount ++ " \x7d"
  | .executeResult r =>
    "\x7b \x22changes\x22: " ++ toString r.changes ++
      ", \x22lastInsertRowid\x22: " ++ toString r.lastInsertRowid ++ " \x7d"
  | .runScriptResult n => "\x7b \x22statementsRun\x22: " ++ toString n ++ " \x7d"
  | .tableList ts => "\x7b \x22tables\x22: " ++ joinCommaSpace (ts.map (·.name)) ++ " \x7d"
  | .tableDescription d => "\x7b \x22sql\x22: \x22" ++ d.sql ++ "\x22 \x7d"
  | .indexList l => "\x7b \x22indexes\x22: " ++ joinCommaSpace (l.map (·.name)) ++ " \x7d"
  | .foreignKeyList l =>
    "\x7b \x22foreignKeys\x22: " ++ joinCommaSpace (l.map (·.table)) ++ " \x7d"
  | .createTableSuccess t => "\x7b \x22success\x22: true, \x22table\x22: \x22" ++ t ++ "\x22 \x7d"
  | .alterTableSuccess t a =>
    "\x7b \x22success\x22: true, \x22table\x22: \x22" ++ t ++
      "\x22, \x22action\x22: \x22" ++ a ++ "\x22 \x7d"
  | .dropTableSuccess t =>
    "\x7b \x22success\x22: true, \x22table\x22: \x22" ++ t ++ "\x22, \x22dropped\x22: true \x7d"
  | .createIndexSuccess t n =>
    "\x7b \x22success\x22: true, \x22table\x22: \x22" ++ t ++
      "\x22, \x22indexName\x22: \x22" ++ n ++ "\x22 \x7d"
  | .dropIndexSuccess n =>
    "\x7b \x22success\x22: true, \x22indexName\x22: \x22" ++ n ++ "\x22, \x22dropped\x22: true \x7d"
  | .info i => "\x7b \x22filePath\x22: \x22" ++ i.filePath ++ "\x22 \x7d"
  | .vacuumResult b a =>
    "\x7b \x22sizeBefore\x22: " ++ toString b ++ ", \x22sizeAfter\x22: " ++ toString a ++ " \x7d"
  | .integrityResult r =>
    "\x7b \x22ok\x22: " ++ (if r.ok then "true" else "false") ++ " \x7d"

/-- The message of the envelope returned when no clientFactory was
passed to createServer (server.ts line 135). -/
def notConfiguredText : String :=
  "Error: Database not configured. Set SQLITE_DB_URL (remote) or SQLITE_DB_PATH (local)."

/-- The try/catch around handleToolCall in the registered handler
(server.ts lines 158-179): a resolved result is serialized into a
success envelope, a thrown error becomes an isError envelope. -/
def runTool (toolName : String) (args : Args) (client : SqliteClientInterface) :
    ResultEnvelope :=
  match handleToolCall toolName args client with
  | .ok result =>
    { content := [{ type := "text", text := serializeOutcome result }], isError := false }
  | .error e =>
    { content := [{ type := "text", text := "Error: " ++ e }], isError := true }

/-- One execution of the handler closure registered per tool (server.ts
lines 129-180), with the memoized client variable made explicit. The
clientFactory argument is none when opts carried no factory; otherwise
it holds the result the factory would produce if invoked on this call.
Returns the envelope, the new value of the memoized client, and whether
the factory was invoked. -/
def toolCallStep (clientFactory : Option (Except String SqliteClientInterface))
    (client : Option SqliteClientInterface) (toolName : String) (args : Args) :
    ResultEnvelope × Option SqliteClientInterface × Bool :=
  match clientFactory with
  | none =>
    ({ content := [{ type := "text", text := notConfiguredText }], isError := true },
     client, false)
  | some factoryResult =>
    match client with
    | some c => (runTool toolName args c, some c, false)
    | none =>
      match factoryResult with
      | .error e =>
        ({ content := [⟨"text", "Error connecting to database: " ++ e⟩],
           isError := true },
         none, true)
      | .ok c => (runTool toolName args c, some c, true)

/-- A sequence of handler executions on one server instance: each call
carries the factory outcome it would observe, the memoized client is
threaded through. Returns each call's envelope and invoked flag, and
the final memoized client. -/
def runCalls (calls : List (Except String SqliteClientInterface × String × Args))
    (client : Option SqliteClientInterface) :
    List (ResultEnvelope × Bool) × Option SqliteClientInterface :=
  match calls with
  | [] => ([], client)
  | (f, name, args) :: rest =>
    let step := toolCallStep (some f) client name args
    let tail := runCalls rest step.2.1
    ((step.1, step.2.2) :: tail.1, tail.2)

/-- The process environment keys read by getConfig (README, index.ts). -/
structure Env where
  SQLITE_DB_URL : Option String := none
  SQLITE_AUTH_TOKEN : Option String := none
  SQLITE_DB_PATH : Option String := none
  SQLITE_TIMEOUT : Option String := none

/-- The configuration getConfig resolves to: a remote target or a local
one. The local timeout keeps the raw environment string (the source
applies parseInt; no claim depends on the numeric value). -/
inductive DbConfig where
  | remote (url : String) (authToken : Option String)
  | localDb (dbPath : String) (timeoutRaw : Option String)
  deriving DecidableEq

/-- getConfig of index.ts (quoted in the README): a truthy SQLITE_DB_URL
yields the remote configuration, otherwise a truthy SQLITE_DB_PATH
yields the local one, otherwise null. -/
def getConfig (env : Env) : Option DbConfig :=
  if jsTruthy env.SQLITE_DB_URL then
    some (.remote (env.SQLITE_DB_URL.getD "") env.SQLITE_AUTH_TOKEN)
  else if jsTruthy env.SQLITE_DB_PATH then
    some (.localDb (env.SQLITE_DB_PATH.getD "")
      (if jsTruthy env.SQLITE_TIMEOUT then env.SQLITE_TIMEOUT else none))
  else
    none

/-- Abstract execution of one SQL statement by the modelled engine on an
abstract database state: none models a thrown engine error. -/
def execStmts {DB : Type} (exec : DB → String → Option DB) (db : DB) :
    List String → Option DB
  | [] => some db
  | stmt :: rest =>
    match exec db stmt with
    | none => none
    | some db2 => execStmts exec db2 rest

/-- runScript of both clients over the modelled engine: the input is
split by splitStatements and the retained statements run as one atomic
unit (the local client's better-sqlite3 transaction rolls back and
rethrows when a statement throws; the remote client's batch(.., write)
is atomic the same way). The result is the statementsRun count (none
when the script threw) paired with the database state afterwards. -/
def runScriptExec {DB : Type} (exec : DB → String → Option DB) (db : DB)
    (sql : String) : Option Nat × DB :=
  match execStmts exec db (splitStatements sql) with
  | some db2 => (some (splitStatements sql).length, db2)
  | none => (none, db)

/-- One row of sqlite_master as the listTables queries read it. -/
structure MasterEntry where
  name : String
  type : String
  deriving DecidableEq

/-- The modelled database state behind a client: the sqlite_master rows
and the per-name result of SELECT COUNT(*) FROM "name" (none models the
count query throwing, e.g. on a view without a backing count). -/
structure DbState where
  master : List MasterEntry
  countRows : String → Option Nat

/-- The WHERE clause of the local client's listTables query: type IN
(table, view) AND name NOT LIKE sqlite_%. -/
def tableFilterLocal (e : MasterEntry) : Bool :=
  (e.type == "table" || e.type == "view") && !(sqlLike "sqlite_%" e.name)

/-- The WHERE clause of the remote client's listTables query: the local
filter plus name NOT LIKE _litestream_%. -/
def tableFilterRemote (e : MasterEntry) : Bool :=
  (e.type == "table" || e.type == "view") && !(sqlLike "sqlite_%" e.name) &&
    !(sqlLike "_litestream_%" e.name)

/-- The ORDER BY name comparison of the listTables queries. -/
def byName (a b : MasterEntry) : Prop := a.name ≤ b.name

instance : DecidableRel byName := fun a b => inferInstanceAs (Decidable (a.name ≤ b.name))

instance : IsTotal MasterEntry byName := ⟨fun a b => le_total a.name b.name⟩

instance : IsTrans MasterEntry byName := ⟨fun _ _ _ h h2 => le_trans h h2⟩

/-- The engine's evaluation of SELECT name, type FROM sqlite_master
WHERE ... ORDER BY name, at the modelled boundary: filter, then sort by
name. -/
def selectMaster (flt : MasterEntry → Bool) (db : DbState) : List MasterEntry :=
  List.insertionSort byName (db.master.filter flt)

/-- The per-row body of both listTables loops: a try/catch around the
COUNT query, rowCount staying 0 when it throws. -/
def toTableInfo (db : DbState) (e : MasterEntry) : TableInfo :=
  { name := e.name, type := e.type, rowCount := (db.countRows e.name).getD 0 }

namespace SqliteClient

/-- listTables of the local client (lines 77-96 of the better-sqlite3
client): no replication-namespace exclusion in its WHERE clause. -/
def listTables (db : DbState) : List TableInfo :=
  (selectMaster tableFilterLocal db).map (toTableInfo db)

/-- The index name the local client's createIndex uses:
indexName || idx_ + table + _ + columns.join(_). -/
def createIndexName (table : String) (columns : List String)
    (indexName : Option String) : String :=
  jsOrElse indexName ("idx_" ++ table ++ "_" ++ joinUnderscore columns)

/-- integrityCheck of the local client on the engine's reported message
list: ok iff exactly one message equal to the literal ok. -/
def integrityCheck (messages : List String) : IntegrityResult :=
  { ok := messages.length == 1 && (messages.getD 0 "" == "ok"), results := messages }

end SqliteClient

namespace LibSqlClient

/-- listTables of the remote client (libsql-client.ts lines 75-98): its
WHERE clause also excludes the _litestream_% replication namespace. -/
def listTables (db : DbState) : List TableInfo :=
  (selectMaster tableFilterRemote db).map (toTableInfo db)

/-- The index name the remote client's createIndex uses (libsql-client.ts
line 221): indexName || idx_ + table + _ + columns.join(_). -/
def createIndexName (table : String) (columns : List String)
    (indexName : Option String) : String :=
  jsOrElse indexName ("idx_" ++ table ++ "_" ++ joinUnderscore columns)

/-- The CREATE INDEX statement the remote client sends (libsql-client.ts
lines 222-227). -/
def createIndexSql (table : String) (columns : List String)
    (indexName : Option String) (unique ifNotExists : Bool) : String :=
  let name := createIndexName table columns indexName
  let uniqueStr := if unique then " UNIQUE" else ""
  let exist := if ifNotExists then " IF NOT EXISTS" else ""
  let cols := joinCommaSpace (columns.map (fun c => "\x22" ++ c ++ "\x22"))
  "CREATE" ++ uniqueStr ++ " INDEX" ++ exist ++ " \x22" ++ name ++ "\x22 ON \x22" ++
    table ++ "\x22 (" ++ cols ++ ")"

/-- integrityCheck of the remote client (libsql-client.ts lines 288-298)
on the engine's reported message list. -/
def integrityCheck (messages : List String) : IntegrityResult :=
  { ok := messages.length == 1 && (messages.getD 0 "" == "ok"), results := messages }

end LibSqlClient

/-- A client behaviour on which every operation succeeds with a minimal
value; used to instantiate the dispatch-layer theorems at a concrete
input. -/
def okClient : SqliteClientInterface where
  query := fun _ _ => .ok { columns := [], rows := [], rowCount := 0 }
  execute := fun _ _ => .ok { changes := 0, lastInsertRowid := 0 }
  runScript := fun _ => .ok 0
  listTables := fun _ => .ok []
  describeTable := fun _ => .ok { columns := [], sql := "" }
  listIndexes := fun _ => .ok []
  listForeignKeys := fun _ => .ok []
  createTable := fun _ _ _ => .ok ()
  alterTable := fun _ _ _ => .ok ()
  dropTable := fun _ _ => .ok ()
  createIndex := fun _ _ _ _ _ => .ok ()
  dropIndex := fun _ _ => .ok ()
  getInfo := fun _ => .ok
    { filePath := "", fileSize := 0, tableCount := 0, pageCount := 0, pageSize := 0,
      journalMode := "", walMode := false, encoding := "", sqliteVersion := "" }
  vacuum := fun _ => .ok (0, 0)
  integrityCheck := fun _ => .ok { ok := true, results := ["ok"] }

/-- A client behaviour on which every operation throws the engine error
message boom. -/
def failClient : SqliteClientInterface where
  query := fun _ _ => .error "boom"
  execute := fun _ _ => .error "boom"
  runScript := fun _ => .error "boom"
  listTables := fun _ => .error "boom"
  describeTable := fun _ => .error "boom"
  listIndexes := fun _ => .error "boom"
  listForeignKeys := fun _ => .error "boom"
  createTable := fun _ _ _ => .error "boom"
  alterTable := fun _ _ _ => .error "boom"
  dropTable := fun _ _ => .error "boom"
  createIndex := fun _ _ _ _ _ => .error "boom"
  dropIndex := fun _ _ => .error "boom"
  getInfo := fun _ => .error "boom"
  vacuum := fun _ => .error "boom"
  integrityCheck := fun _ => .error "boom"

/-- An instrumented engine whose state is the log of executed
statements and on which every statement succeeds. -/
def logAll (db : List String) (stmt : String) : Option (List String) :=
  some (db ++ [stmt])

/-- An instrumented log engine that throws on the statement BOGUS and
accepts any other statement. -/
def logOrFail (db : List String) (stmt : String) : Option (List String) :=
  if stmt == "BOGUS" then none else some (db ++ [stmt])

end SqliteMcp

namespace SqliteMcp

/-- The boolean ok flag both integrityCheck implementations compute is
the test for the one-element list holding the literal ok. -/
theorem integrity_flag_iff (msgs : List String) :
    ((msgs.length == 1 && (msgs.getD 0 "" == "ok")) = true) ↔ msgs = ["ok"] := by
  match msgs with
  | [] => simp
  | [m] => simp [List.getD]
  | m :: m2 :: rest => simp

/-- C9: integrityCheck returns the full message list as results, and ok
is true iff the engine reported exactly one message and that message is
the literal success token ok — in both client implementations. -/
theorem integrityCheck_ok_iff (messages : List String) :
    ((LibSqlClient.integrityCheck messages).ok = true ↔ messages = ["ok"]) ∧
    ((SqliteClient.integrityCheck messages).ok = true ↔ messages = ["ok"]) ∧
    (LibSqlClient.integrityCheck messages).results = messages ∧
    (SqliteClient.integrityCheck messages).results = messages :=
  ⟨integrity_flag_iff messages, integrity_flag_iff messages, rfl, rfl⟩

/-- C3: when both a remote URL and a local path are configured,
getConfig resolves to the remote target, never the local one. -/
theorem remote_wins_over_local (env : Env) (u p : String)
    (hu : env.SQLITE_DB_URL = some u) (hu2 : u ≠ "")
    (hp : env.SQLITE_DB_PATH = some p) (hp2 : p ≠ "") :
    getConfig env = some (.remote u env.SQLITE_AUTH_TOKEN) := by
  simp [getConfig, jsTruthy, hu, hu2]

/-- Witness for C3 at a concrete environment carrying both targets. -/
theorem remote_wins_over_local_witness :
    getConfig { SQLITE_DB_URL := some "libsql://db.example", SQLITE_DB_PATH := some "a.db" } =
      some (.remote "libsql://db.example" none) :=
  remote_wins_over_local
    { SQLITE_DB_URL := some "libsql://db.example", SQLITE_DB_PATH := some "a.db" }
    "libsql://db.example" "a.db" rfl (by decide) rfl (by decide)

/-- Prepending a string distributes over the underscore fold. -/
theorem append_fold_underscore (xs : List String) :
    ∀ a b : String,
      a ++ xs.foldl (fun acc c => acc ++ "_" ++ c) b =
        xs.foldl (fun acc c => acc ++ "_" ++ c) (a ++ b) := by
  induction xs with
  | nil => intro a b; rfl
  | cons x xs ih =>
    intro a b
    simp only [List.foldl]
    rw [ih a (b ++ "_" ++ x)]
    have h : a ++ (b ++ "_" ++ x) = (a ++ b) ++ "_" ++ x := by
      simp [String.append_assoc]
    rw [h]

/-- joinUnderscore of a nonempty list is the left fold that appends one
underscore and one element at a time, in order. -/
theorem joinUnderscore_eq_foldl (xs : List String) :
    ∀ a : String, joinUnderscore (a :: xs) = xs.foldl (fun acc c => acc ++ "_" ++ c) a := by
  induction xs with
  | nil => intro a; rfl
  | cons x xs ih =>
    intro a
    have h1 : joinUnderscore (a :: x :: xs) = a ++ "_" ++ joinUnderscore (x :: xs) := rfl
    rw [h1, ih x, append_fold_underscore xs (a ++ "_") x]
    rfl

/-- C7: with indexName omitted, both clients derive the index name
idx_ followed by the table and every column name in the given order,
joined by underscores. -/
theorem createIndex_default_name (table : String) (cols : List String) (h : cols ≠ []) :
    LibSqlClient.createIndexName table cols none =
      "idx_" ++ table ++ "_" ++ joinUnderscore cols ∧
    SqliteClient.createIndexName table cols none =
      "idx_" ++ table ++ "_" ++ joinUnderscore cols ∧
    "idx_" ++ joinUnderscore (table :: cols) =
      cols.foldl (fun acc c => acc ++ "_" ++ c) ("idx_" ++ table) ∧
    "idx_" ++ table ++ "_" ++ joinUnderscore cols = "idx_" ++ joinUnderscore (table :: cols) := by
  refine ⟨rfl, rfl, ?_, ?_⟩
  · rw [joinUnderscore_eq_foldl cols table, append_fold_underscore cols "idx_" table]
  · match cols, h with
    | c :: cs, _ =>
      have h1 : joinUnderscore (table :: c :: cs) = table ++ "_" ++ joinUnderscore (c :: cs) := rfl
      rw [h1]
      simp [String.append_assoc]

/-- Witness for C7: table t with columns a, b yields exactly idx_t_a_b. -/
theorem createIndex_default_name_witness :
    LibSqlClient.createIndexName "t" ["a", "b"] none = "idx_t_a_b" :=
  ((createIndex_default_name "t" ["a", "b"] (by decide)).1).trans (by decide)

/-- C10: when indexName is omitted, the name the dispatcher reports in
its sqlite_create_index success result is exactly the name the client's
createIndex derives and interpolates into its CREATE INDEX statement. -/
theorem dispatcher_client_index_name_agree (args : Args)
    (client : SqliteClientInterface) (t : String) (cols : List String)
    (ht : args.table = some t) (hc : args.columns = some cols)
    (hn : args.indexName = none) (hcols : cols ≠ [])
    (hok : client.createIndex t cols none args.unique args.ifNotExists = .ok ()) :
    handleToolCall "sqlite_create_index" args client =
      .ok (.createIndexSuccess t (LibSqlClient.createIndexName t cols none)) ∧
    LibSqlClient.createIndexName t cols none = SqliteClient.createIndexName t cols none ∧
    (∀ u e : Bool, LibSqlClient.createIndexSql t cols none u e =
      "CREATE" ++ (if u then " UNIQUE" else "") ++ " INDEX" ++
        (if e then " IF NOT EXISTS" else "") ++ " \x22" ++
        LibSqlClient.createIndexName t cols none ++ "\x22 ON \x22" ++ t ++ "\x22 (" ++
        joinCommaSpace (cols.map (fun c => "\x22" ++ c ++ "\x22")) ++ ")") := by
  refine ⟨?_, rfl, fun u e => rfl⟩
  simp [handleToolCall, ht, hc, hn, hok, LibSqlClient.createIndexName, Except.map]

/-- Witness for C10 at table t, columns a and b, on a client whose
createIndex succeeds. -/
theorem dispatcher_client_index_name_agree_witness :
    handleToolCall "sqlite_create_index"
        { table := some "t", columns := some ["a", "b"] } okClient =
      .ok (.createIndexSuccess "t" (LibSqlClient.createIndexName "t" ["a", "b"] none)) :=
  (dispatcher_client_index_name_agree
    { table := some "t", columns := some ["a", "b"] } okClient "t" ["a", "b"]
    rfl rfl rfl (by decide) rfl).1

/-- C1: when the client operation invoked by the dispatch throws, the
handler converts the failure at this boundary into an envelope with
isError true carrying the message; and every execution of the handler,
whatever the factory, cache and call, returns exactly one envelope
holding exactly one text content item (the step function is total, so
no failure propagates out of the dispatch call). -/
theorem dispatch_catches_client_failures
    (fr : Except String SqliteClientInterface) (client : SqliteClientInterface)
    (toolName : String) (args : Args) (e : String)
    (herr : handleToolCall toolName args client = .error e) :
    (toolCallStep (some fr) (some client) toolName args).1 =
      { content := [⟨"text", "Error: " ++ e⟩], isError := true } ∧
    (∀ (factory : Option (Except String SqliteClientInterface))
       (st : Option SqliteClientInterface) (name2 : String) (args2 : Args),
       (toolCallStep factory st name2 args2).1.content.map (fun c => c.type) = ["text"]) := by
  constructor
  · simp [toolCallStep, runTool, herr]
  · intro factory st name2 args2
    cases factory with
    | none => rfl
    | some fr2 =>
      cases st with
      | some c =>
        cases h2 : handleToolCall name2 args2 c <;> simp [toolCallStep, runTool, h2]
      | none =>
        cases fr2 with
        | error e2 => rfl
        | ok c =>
          cases h2 : handleToolCall name2 args2 c <;> simp [toolCallStep, runTool, h2]

/-- Witness for C1: a query on a client whose engine throws boom yields
the error envelope with the message. -/
theorem dispatch_catches_client_failures_witness :
    (toolCallStep (some (.ok okClient)) (some failClient) "sqlite_query" {}).1 =
      { content := [⟨"text", "Error: boom"⟩], isError := true } :=
  (dispatch_catches_client_failures (.ok okClient) failClient "sqlite_query" {} "boom" rfl).1

/-- C2: with no clientFactory passed to createServer (no resolvable
target), any tool call returns the NotConfigured error envelope with
isError true, the handler returns normally with its state unchanged,
and an environment with neither a truthy URL nor a truthy path indeed
resolves to no configuration. -/
theorem notConfigured_error_envelope (st : Option SqliteClientInterface)
    (toolName : String) (args : Args) (env : Env)
    (h : toolName ∈ toolNames)
    (hu : jsTruthy env.SQLITE_DB_URL = false)
    (hp : jsTruthy env.SQLITE_DB_PATH = false) :
    getConfig env = none ∧
    toolCallStep none st toolName args =
      ({ content := [⟨"text", notConfiguredText⟩], isError := true }, st, false) :=
  ⟨by simp [getConfig, hu, hp], rfl⟩

/-- Witness for C2: a query against an empty environment. -/
theorem notConfigured_error_envelope_witness :
    getConfig {} = none ∧
    toolCallStep none none "sqlite_query" {} =
      ({ content := [⟨"text", notConfiguredText⟩], isError := true }, none, false) :=
  notConfigured_error_envelope none "sqlite_query" {} {} (by decide) rfl rfl

/-- From a cached client, a whole call sequence never invokes the
factory. -/
theorem runCalls_cached_no_invocation
    (calls : List (Except String SqliteClientInterface × String × Args)) :
    ∀ c : SqliteClientInterface,
      (runCalls calls (some c)).1.filter (fun o => o.2) = [] := by
  induction calls with
  | nil => intro c; rfl
  | cons call rest ih =>
    intro c
    obtain ⟨f, name, args⟩ := call
    simp [runCalls, toolCallStep, ih c]

/-- When every factory outcome in the sequence is a success, the factory
is invoked at most once over the whole sequence. -/
theorem runCalls_all_ok_at_most_one
    (calls : List (Except String SqliteClientInterface × String × Args))
    (hall : ∀ x ∈ calls, ∃ cl, x.1 = Except.ok cl) :
    ((runCalls calls none).1.filter (fun o => o.2)).length ≤ 1 := by
  cases calls with
  | nil => simp [runCalls]
  | cons call rest =>
    obtain ⟨f, name, args⟩ := call
    obtain ⟨cl, hcl⟩ := hall (f, name, args) (by simp)
    simp only at hcl
    subst hcl
    simp [runCalls, toolCallStep, runCalls_cached_no_invocation rest cl]

/-- C4: the first successful resolution is cached and reused — a cached
client is used directly, the factory not invoked and the cache kept; a
successful resolution from the empty cache stores the client; a failed
resolution leaves the cache empty; whenever the cache is empty the
factory is invoked (so a failure is retried on the next call); and over
any call sequence whose factory outcomes are all successes the factory
runs at most once. -/
theorem client_memoization
    (fr : Except String SqliteClientInterface) (c : SqliteClientInterface)
    (toolName : String) (args : Args) (e : String)
    (calls : List (Except String SqliteClientInterface × String × Args))
    (hall : ∀ x ∈ calls, ∃ cl, x.1 = Except.ok cl) :
    toolCallStep (some fr) (some c) toolName args =
      (runTool toolName args c, some c, false) ∧
    (toolCallStep (some (Except.error e)) none toolName args).2 = (none, true) ∧
    (toolCallStep (some (Except.ok c)) none toolName args).2 = (some c, true) ∧
    (∀ fr2, (toolCallStep (some fr2) none toolName args).2.2 = true) ∧
    ((runCalls calls none).1.filter (fun o => o.2)).length ≤ 1 := by
  refine ⟨rfl, rfl, rfl, ?_, runCalls_all_ok_at_most_one calls hall⟩
  intro fr2
  cases fr2 <;> rfl

/-- Witness for C4: a one-call sequence with a succeeding factory. -/
theorem client_memoization_witness :
    toolCallStep (some (Except.ok okClient)) (some okClient) "sqlite_query" {} =
      (runTool "sqlite_query" {} okClient, some okClient, false) :=
  (client_memoization (Except.ok okClient) okClient "sqlite_query" {} "down"
    [(Except.ok okClient, "sqlite_query", {})]
    (fun x hx => ⟨okClient, by simp at hx; rw [hx]⟩)).1

/-- C5: runScript is atomic — when the script splits into S1 and S2 and
the engine fails S2 from every state, runScript throws (no statement
count) and the database state afterwards is exactly the initial one: no
effect of S1 is observable. -/
theorem runScript_atomic {DB : Type} (exec : DB → String → Option DB) (db : DB)
    (sql s1 s2 : String)
    (hsplit : splitStatements sql = [s1, s2])
    (hfail : ∀ d, exec d s2 = none) :
    runScriptExec exec db sql = (none, db) := by
  simp only [runScriptExec, hsplit]
  cases h1 : exec db s1 <;> simp [execStmts, h1, hfail]

/-- Witness for C5: a two-statement script whose second statement fails
on the instrumented log engine leaves the log untouched. -/
theorem runScript_atomic_witness :
    runScriptExec logOrFail [] "CREATE TABLE a (x); BOGUS" = (none, []) :=
  runScript_atomic logOrFail [] "CREATE TABLE a (x); BOGUS" "CREATE TABLE a (x)" "BOGUS"
    (by decide) (fun d => rfl)

/-- On the all-succeeding log engine, executing a statement list appends
exactly that list to the log. -/
theorem execStmts_logAll (l : List String) :
    ∀ db : List String, execStmts logAll db l = some (db ++ l) := by
  induction l with
  | nil => intro db; simp [execStmts]
  | cons s rest ih => intro db; simp [execStmts, logAll, ih (db ++ [s])]

/-- C6: runScript splits its input purely lexically on semicolons,
discards the segments that trim to nothing, executes exactly the
retained segments in order (observed on the instrumented engine), and
returns their count; a semicolon inside a string literal is split like
any other, and whitespace-only segments are dropped. -/
theorem runScript_lexical_split :
    (∀ (sql : String) (db : List String),
      runScriptExec logAll db sql =
        (some (splitStatements sql).length, db ++ splitStatements sql)) ∧
    (∀ (sql : String) (db d2 : List String) (n : Nat)
       (exec : List String → String → Option (List String)),
      runScriptExec exec db sql = (some n, d2) → n = (splitStatements sql).length) ∧
    splitStatements "INSERT INTO t VALUES (\x27a;b\x27)" =
      ["INSERT INTO t VALUES (\x27a", "b\x27)"] ∧
    splitStatements "  ; ;; SELECT 1 ;  " = ["SELECT 1"] := by
  refine ⟨?_, ?_, by decide, by decide⟩
  · intro sql db
    simp [runScriptExec, execStmts_logAll (splitStatements sql) db]
  · intro sql db d2 n exec h
    simp only [runScriptExec] at h
    cases h2 : execStmts exec db (splitStatements sql) with
    | none => rw [h2] at h; simp at h
    | some dd => rw [h2] at h; simp at h; exact h.1.symm

/-- Counterexample to C8 as stated: the local client's listTables does
not exclude the replication-internal namespace. On a database whose
only sqlite_master row is the table _litestream_seq (5 rows), the local
client returns that entry while the remote client excludes it. -/
theorem listTables_local_includes_litestream :
    SqliteClient.listTables ⟨[⟨"_litestream_seq", "table"⟩], fun _ => some 5⟩ =
      [⟨"_litestream_seq", "table", 5⟩] ∧
    LibSqlClient.listTables ⟨[⟨"_litestream_seq", "table"⟩], fun _ => some 5⟩ = [] := by
  exact ⟨by decide, by decide⟩

/-- C8 (amended): both listTables implementations return, in name-sorted
order, one entry per sqlite_master table or view passing their WHERE
filter — the remote client excludes both the engine-internal sqlite_%
and the replication-internal _litestream_% namespaces, the local client
only the engine-internal one — each entry carrying its row count, 0
when the count query fails, the call as a whole still succeeding. -/
theorem listTables_sorted_filtered_counts (db : DbState) :
    (SqliteClient.listTables db).Pairwise (fun a b => a.name ≤ b.name) ∧
    (LibSqlClient.listTables db).Pairwise (fun a b => a.name ≤ b.name) ∧
    (SqliteClient.listTables db).Perm
      ((db.master.filter tableFilterLocal).map (toTableInfo db)) ∧
    (LibSqlClient.listTables db).Perm
      ((db.master.filter tableFilterRemote).map (toTableInfo db)) ∧
    (∀ t ∈ SqliteClient.listTables db, t.rowCount = (db.countRows t.name).getD 0) ∧
    (∀ t ∈ LibSqlClient.listTables db, t.rowCount = (db.countRows t.name).getD 0) := by
  refine ⟨?_, ?_, ?_, ?_, ?_, ?_⟩
  · exact List.pairwise_map.mpr (List.sorted_insertionSort byName _)
  · exact List.pairwise_map.mpr (List.sorted_insertionSort byName _)
  · exact (List.perm_insertionSort byName _).map (toTableInfo db)
  · exact (List.perm_insertionSort byName _).map (toTableInfo db)
  · intro t ht
    obtain ⟨e, _, rfl⟩ := List.mem_map.mp ht
    rfl
  · intro t ht
    obtain ⟨e, _, rfl⟩ := List.mem_map.mp ht
    rfl

end SqliteMcp
